import Mathlib

/-!
Verification development for the `espp::Interrupt` GPIO interrupt
demultiplexer (`components/interrupt/include/interrupt.hpp`).

The C++ class is shallowly embedded: the member state of an `Interrupt`
object, together with the observable effects it has on the GPIO driver
and on its logger, is a Lean structure, and each member function is a
Lean function on that structure.  External inputs (the electrical level
read by `gpio_get_level`, the platform capability flag
`CONFIG_SOC_GPIO_SUPPORT_PIN_GLITCH_FILTER`, and the outcome of
`gpio_new_pin_glitch_filter`) are collected in an `Env` record.
`std::function` callbacks are modelled by `Option Nat`: `none` is an
empty (absent) callback, `some k` is a callback with identity `k`;
invoking callback `k` with event `e` is recorded as the pair `(k, e)`.
Machine integers: the C++ `int` pin id is `Int`, and the
`static_cast<uint8_t>` in `task_callback` is reduction modulo `2^8`.
-/

namespace espp

/-- Models `static_cast<uint8_t>` applied to a C++ `int`: reduction
modulo `2^8 = 256` into `[0, 255]`. -/
def uint8_of_int (n : Int) : Nat := (n % 256).toNat

/-- `espp::Interrupt::Event`: the event passed to a user callback.
`gpio_num` is a `uint8_t`, so it is a `Nat` produced by `uint8_of_int`. -/
structure Event where
  gpio_num : Nat
  active : Bool
deriving DecidableEq

/-- `espp::Interrupt::ActiveLevel`. -/
inductive ActiveLevel where
  | LOW
  | HIGH
deriving DecidableEq

/-- The integer value of an `ActiveLevel` (`LOW = 0`, `HIGH = 1`),
as used by the comparison in `is_active_level`. -/
def ActiveLevel.toInt : ActiveLevel → Int
  | .LOW => 0
  | .HIGH => 1

/-- `espp::Interrupt::Type`: the trigger type for the GPIO interrupt
(the underlying `gpio_int_type_t` values are irrelevant to the claims,
only the identity of the enumerator matters). -/
inductive InterruptType where
  | ANY_EDGE
  | RISING_EDGE
  | FALLING_EDGE
  | LOW_LEVEL
  | HIGH_LEVEL
deriving DecidableEq

/-- `espp::Interrupt::InterruptConfig`: the per-pin registration spec.
`callback` is `none` when the `std::function` is empty. -/
structure InterruptConfig where
  gpio_num : Int
  callback : Option Nat
  active_level : ActiveLevel
  interrupt_type : InterruptType := InterruptType.ANY_EDGE
  pullup_enabled : Bool := false
  pulldown_enabled : Bool := false
  enable_pin_glitch_filter : Bool := false
deriving DecidableEq

/-- `espp::Interrupt::Config` (the `task_config` and `log_level` fields
have no observable effect in the model and are omitted). -/
structure Config where
  interrupts : List InterruptConfig
  event_queue_size : Nat := 10

/-- `espp::Interrupt::EventData`: the element type of the FreeRTOS
queue; `{-1}` is the sentinel posted by the destructor. -/
structure EventData where
  gpio_num : Int
deriving DecidableEq

/-- `espp::Interrupt::HandlerArgs`: the per-pin context handed to the
ISR.  The C++ field `event_queue` is a `QueueHandle_t` copied from the
member `queue_`; since a registry owns a single queue, the model keeps
only whether that handle was non-null at arming time. -/
structure HandlerArgs where
  gpio_num : Int
  event_queue : Bool
deriving DecidableEq

/-- The bounded FreeRTOS queue created by `xQueueCreate`: a fixed
capacity and the current FIFO contents. -/
structure EventQueue where
  capacity : Nat
  items : List EventData
deriving DecidableEq

/-- `xQueueSendFromISR` (equally `xQueueSend` with timeout `0`): append
to the tail when there is room, otherwise leave the queue untouched and
report failure.  It never blocks or retries. -/
def xQueueSendFromISR (q : EventQueue) (e : EventData) : EventQueue × Bool :=
  if q.items.length < q.capacity then
    ({ q with items := q.items ++ [e] }, true)
  else
    (q, false)

/-- `espp::Interrupt::isr_handler`: reads the pin id from its
`HandlerArgs` and enqueues `{gpio_num}`.  The C++ handler discards the
return status of `xQueueSendFromISR` (and passes `nullptr` for the
woken flag), so the model returns only the resulting queue. -/
def isr_handler (args : HandlerArgs) (q : EventQueue) : EventQueue :=
  (xQueueSendFromISR q { gpio_num := args.gpio_num }).1

/-- One log line emitted by the component (the claims only need the
identity of the message, not its text). -/
inductive LogMsg where
  | errorFailedCreateQueue
  | infoAddingInterrupt (gpio_num : Int)
  | infoConfiguringInterrupt (gpio_num : Int)
  | errorNoCallbackProvided (gpio_num : Int)
  | infoReceivedInterrupt (gpio_num : Int)
  | errorNoInterruptFound (gpio_num : Int)
  | errorNoCallbackRegistered (gpio_num : Int)
  | infoEnablingGlitchFilter (gpio_num : Int)
  | errorGlitchFilterFailed (gpio_num : Int)
  | warnGlitchFilterUnsupported
deriving DecidableEq

/-- External inputs of the embedding: the electrical level returned by
`gpio_get_level`, the compile-time capability flag
`CONFIG_SOC_GPIO_SUPPORT_PIN_GLITCH_FILTER`, and the outcome of
`gpio_new_pin_glitch_filter` per pin (`some handle` on `ESP_OK`,
`none` on error). -/
structure Env where
  gpio_get_level : Int → Int
  glitch_filter_supported : Bool
  gpio_new_pin_glitch_filter : Int → Option Nat

/-- `espp::Interrupt::is_active_level`: reads the pin's level and
compares it with the integer value of the active level. -/
def is_active_level (env : Env) (gpio_num : Int) (active_level : ActiveLevel) : Bool :=
  env.gpio_get_level gpio_num == active_level.toInt

/-- The observable outcome of one `task_callback` invocation: the
returned stop flag, the log lines emitted, and the callback invocations
performed (callback identity paired with the `Event` argument). -/
structure DispatchOut where
  stop : Bool
  log : List LogMsg
  invocations : List (Nat × Event)
deriving DecidableEq

/-- `espp::Interrupt::task_callback`, given the `EventData` that
`xQueueReceive` just dequeued and the current spec table `interrupts_`.
Mirrors the source line by line: sentinel check, `std::find_if` over
the table, callback presence check, level read, `Event` construction
with a `uint8_t` cast, and a single synchronous callback invocation. -/
def task_callback (env : Env) (interrupts_ : List InterruptConfig)
    (event_data : EventData) : DispatchOut :=
  if event_data.gpio_num = -1 then
    { stop := true, log := [], invocations := [] }
  else
    match interrupts_.find? (fun interrupt => interrupt.gpio_num == event_data.gpio_num) with
    | none =>
        { stop := false
          log := [LogMsg.infoReceivedInterrupt event_data.gpio_num,
                  LogMsg.errorNoInterruptFound event_data.gpio_num]
          invocations := [] }
    | some interrupt =>
        match interrupt.callback with
        | none =>
            { stop := false
              log := [LogMsg.infoReceivedInterrupt event_data.gpio_num,
                      LogMsg.errorNoCallbackRegistered event_data.gpio_num]
              invocations := [] }
        | some cb =>
            let active := is_active_level env event_data.gpio_num interrupt.active_level
            { stop := false
              log := [LogMsg.infoReceivedInterrupt event_data.gpio_num]
              invocations := [(cb, { gpio_num := uint8_of_int event_data.gpio_num
                                     active := active })] }

/-- The state of the task owned by `task_` (a `espp::Task` running
`task_callback` in a loop until it returns `true`). -/
inductive TaskState where
  | running
  | stopped
deriving DecidableEq

/-- The `gpio_config_t` fields that `configure_interrupt` fills in for
a pin: input mode, trigger type and pull resistors. -/
structure PinHwConfig where
  mode_input : Bool
  intr_type : InterruptType
  pull_up_en : Bool
  pull_down_en : Bool
deriving DecidableEq

/-- The member state of an `espp::Interrupt` object together with the
observable effects it has on its environment.  `queue_`,
`interrupts_`, `handler_args_`, `glitch_filter_handles_` and `task_`
are the C++ data members (`task_` is `none` while the `unique_ptr` is
null, `queue_` is `none` while the handle is null or after
`vQueueDelete`).  `gpio_pin_config` records the last `gpio_config`
applied to each pin, `gpio_isr_handlers` the handler context currently
installed for each pin by `gpio_isr_handler_add` / removed by
`gpio_isr_handler_remove`, and `log` the log lines emitted so far. -/
structure Interrupt where
  queue_ : Option EventQueue
  interrupts_ : List InterruptConfig
  handler_args_ : List HandlerArgs
  glitch_filter_handles_ : List Nat
  task_ : Option TaskState
  gpio_pin_config : Int → Option PinHwConfig
  gpio_isr_handlers : Int → Option HandlerArgs
  log : List LogMsg

/-- `espp::Interrupt::configure_interrupt`, line by line: log, reject a
missing callback (log an error and return), apply `gpio_config` (input
mode, trigger, pulls), allocate the `HandlerArgs` (capturing the
current `queue_` handle, null or not), append it to `handler_args_`,
install the ISR via `gpio_isr_handler_add`, then handle the optional
glitch filter: on a supporting platform allocate and record a filter
handle (logging an error when allocation fails), otherwise log a
warning and proceed. -/
def configure_interrupt (env : Env) (s : Interrupt) (interrupt : InterruptConfig) :
    Interrupt :=
  let s := { s with log := s.log ++ [LogMsg.infoConfiguringInterrupt interrupt.gpio_num] }
  match interrupt.callback with
  | none =>
      { s with log := s.log ++ [LogMsg.errorNoCallbackProvided interrupt.gpio_num] }
  | some _ =>
      let io_conf : PinHwConfig :=
        { mode_input := true
          intr_type := interrupt.interrupt_type
          pull_up_en := interrupt.pullup_enabled
          pull_down_en := interrupt.pulldown_enabled }
      let s := { s with gpio_pin_config :=
                   fun p => if p = interrupt.gpio_num then some io_conf else s.gpio_pin_config p }
      let handler_arg : HandlerArgs :=
        { gpio_num := interrupt.gpio_num, event_queue := s.queue_.isSome }
      let s := { s with
                 handler_args_ := s.handler_args_ ++ [handler_arg]
                 gpio_isr_handlers :=
                   fun p => if p = interrupt.gpio_num then some handler_arg
                            else s.gpio_isr_handlers p }
      if interrupt.enable_pin_glitch_filter then
        if env.glitch_filter_supported then
          let s := { s with log := s.log ++ [LogMsg.infoEnablingGlitchFilter interrupt.gpio_num] }
          match env.gpio_new_pin_glitch_filter interrupt.gpio_num with
          | none =>
              { s with log := s.log ++ [LogMsg.errorGlitchFilterFailed interrupt.gpio_num] }
          | some handle =>
              { s with glitch_filter_handles_ := s.glitch_filter_handles_ ++ [handle] }
        else
          { s with log := s.log ++ [LogMsg.warnGlitchFilterUnsupported] }
      else
        s

/-- `espp::Interrupt::add_interrupt`: log, append the spec to
`interrupts_` (unconditionally), then `configure_interrupt` it. -/
def add_interrupt (env : Env) (s : Interrupt) (interrupt : InterruptConfig) : Interrupt :=
  let s := { s with log := s.log ++ [LogMsg.infoAddingInterrupt interrupt.gpio_num] }
  let s := { s with interrupts_ := s.interrupts_ ++ [interrupt] }
  configure_interrupt env s interrupt

/-- The `espp::Interrupt` constructor.  `queue_create_ok` is whether
`xQueueCreate` succeeded.  The member initializer list sets `queue_`
and copies `config.interrupts` into `interrupts_`; on queue failure the
body logs an error and returns early (no pin is configured, no task is
created); otherwise every initial spec is configured and the task is
created and started.  (The one-time `gpio_install_isr_service` guarded
by the process-wide flag has no further observable effect and is not
modelled.) -/
def construct (env : Env) (queue_create_ok : Bool) (config : Config) : Interrupt :=
  let init : Interrupt :=
    { queue_ := if queue_create_ok then
                  some { capacity := config.event_queue_size, items := [] }
                else none
      interrupts_ := config.interrupts
      handler_args_ := []
      glitch_filter_handles_ := []
      task_ := none
      gpio_pin_config := fun _ => none
      gpio_isr_handlers := fun _ => none
      log := [] }
  if queue_create_ok then
    let s := config.interrupts.foldl (fun s i => configure_interrupt env s i) init
    { s with task_ := some TaskState.running }
  else
    { init with log := init.log ++ [LogMsg.errorFailedCreateQueue] }

/-- The destructor's first loop: `gpio_isr_handler_remove` for the pin
of every entry of `handler_args_`, in order. -/
def remove_handlers (g : Int → Option HandlerArgs) :
    List HandlerArgs → (Int → Option HandlerArgs)
  | [] => g
  | args :: rest =>
      remove_handlers (fun p => if p = args.gpio_num then none else g p) rest

/-- The `espp::Interrupt` destructor: remove every installed ISR
handler (under the lock); then, if the queue exists, post the sentinel
`{-1}`, stop the task (`task_->stop()` blocks until `task_callback`
returns `true` on the sentinel) and delete the queue; finally disable
and delete every glitch filter handle and delete the `HandlerArgs`. -/
def destruct (s : Interrupt) : Interrupt :=
  let s := { s with gpio_isr_handlers := remove_handlers s.gpio_isr_handlers s.handler_args_ }
  let s :=
    match s.queue_ with
    | some _ =>
        { s with queue_ := none
                 task_ := if s.task_.isSome then some TaskState.stopped else none }
    | none => s
  { s with glitch_filter_handles_ := [], handler_args_ := [] }

/-- One externally visible action of the destructor, used to state the
order in which the destructor performs its work. -/
inductive DtorAction where
  | removeHandler (gpio_num : Int)
  | postSentinel
  | stopTask
  | deleteQueue
  | disableGlitchFilter (handle : Nat)
  | deleteGlitchFilter (handle : Nat)
  | deleteHandlerArg (gpio_num : Int)
deriving DecidableEq

/-- The sequence of actions the destructor performs, in source order:
all `gpio_isr_handler_remove` calls first; then, only when the queue
handle is non-null, the sentinel send, the task stop and the queue
deletion; then the glitch-filter teardown; then the `HandlerArgs`
deletions. -/
def destructor_actions (s : Interrupt) : List DtorAction :=
  (s.handler_args_.map fun args => DtorAction.removeHandler args.gpio_num) ++
  ((if s.queue_.isSome then
      [DtorAction.postSentinel, DtorAction.stopTask, DtorAction.deleteQueue]
    else []) ++
   ((s.glitch_filter_handles_.flatMap fun h =>
       [DtorAction.disableGlitchFilter h, DtorAction.deleteGlitchFilter h]) ++
    (s.handler_args_.map fun args => DtorAction.deleteHandlerArg args.gpio_num)))

/-- An event of the surrounding system: a hardware edge on a pin
(running the installed ISR handler, if any), or the dispatch task
getting to run once (dequeuing one event and running `task_callback`,
when the task is running and the queue is non-empty). -/
inductive SysEvent where
  | hwEdge (gpio_num : Int)
  | taskDispatch

/-- One system step: the resulting state and the callback invocations
it performs.  A hardware edge on a pin with no installed handler does
nothing; with an installed handler it runs `isr_handler`, which
enqueues into the referenced queue (a null or deleted queue handle
leaves no event anywhere).  A task-dispatch step dequeues the head
event and runs `task_callback`, stopping the task when it returns
`true`. -/
def step (env : Env) (s : Interrupt) : SysEvent → Interrupt × List (Nat × Event)
  | SysEvent.hwEdge p =>
      match s.gpio_isr_handlers p with
      | none => (s, [])
      | some args =>
          if args.event_queue then
            match s.queue_ with
            | some q => ({ s with queue_ := some (isr_handler args q) }, [])
            | none => (s, [])
          else (s, [])
  | SysEvent.taskDispatch =>
      match s.task_ with
      | some TaskState.running =>
          match s.queue_ with
          | some q =>
              match q.items with
              | [] => (s, [])
              | ed :: rest =>
                  let out := task_callback env s.interrupts_ ed
                  ({ s with queue_ := some { q with items := rest }
                            task_ := if out.stop then some TaskState.stopped
                                     else some TaskState.running
                            log := s.log ++ out.log },
                   out.invocations)
          | none => (s, [])
      | some TaskState.stopped => (s, [])
      | none => (s, [])

/-- Run a sequence of system events from a state, collecting every
callback invocation performed along the way. -/
def run (env : Env) (s : Interrupt) : List SysEvent → Interrupt × List (Nat × Event)
  | [] => (s, [])
  | ev :: rest =>
      let p1 := step env s ev
      let p2 := run env p1.1 rest
      (p2.1, p1.2 ++ p2.2)

/-- A registry built through the public API: construction followed by a
sequence of `add_interrupt` calls. -/
def registry_of (env : Env) (queue_create_ok : Bool) (config : Config)
    (specs : List InterruptConfig) : Interrupt :=
  specs.foldl (add_interrupt env) (construct env queue_create_ok config)

/-- A concrete environment: every pin reads level `1`, the platform
supports the glitch filter and filter allocation succeeds. -/
def env0 : Env :=
  { gpio_get_level := fun _ => 1
    glitch_filter_supported := true
    gpio_new_pin_glitch_filter := fun p => some p.toNat }

/-- A concrete environment for a platform without the glitch-filter
capability. -/
def env_nofilter : Env :=
  { gpio_get_level := fun _ => 1
    glitch_filter_supported := false
    gpio_new_pin_glitch_filter := fun _ => none }

/-- A concrete spec for pin 3 with a present callback. -/
def spec3 : InterruptConfig :=
  { gpio_num := 3, callback := some 1, active_level := ActiveLevel.HIGH }

/-- A concrete spec for pin 3 with different settings and a different
callback, used for re-registration. -/
def spec3_alt : InterruptConfig :=
  { gpio_num := 3, callback := some 5, active_level := ActiveLevel.LOW
    interrupt_type := InterruptType.FALLING_EDGE, pullup_enabled := true }

/-- A concrete spec for pin 7 whose callback is absent. -/
def spec7_nocb : InterruptConfig :=
  { gpio_num := 7, callback := none, active_level := ActiveLevel.HIGH }

/-- A concrete spec registered with the out-of-`uint8_t`-range pin id
300. -/
def spec300 : InterruptConfig :=
  { gpio_num := 300, callback := some 2, active_level := ActiveLevel.LOW }

/-- A concrete spec for pin 9 requesting the glitch filter. -/
def spec9_filter : InterruptConfig :=
  { gpio_num := 9, callback := some 4, active_level := ActiveLevel.HIGH
    enable_pin_glitch_filter := true }

/-- A configuration with no initial interrupts. -/
def cfg_empty : Config := { interrupts := [] }

/-- A configuration with the single initial spec `spec3` and queue
capacity 2. -/
def cfg3 : Config := { interrupts := [spec3], event_queue_size := 2 }

/-- A concrete queue of capacity 2 that is already full. -/
def qfull : EventQueue :=
  { capacity := 2, items := [{ gpio_num := 1 }, { gpio_num := 2 }] }

/-- A concrete ISR handler context for pin 3. -/
def args3 : HandlerArgs := { gpio_num := 3, event_queue := true }

/-- The predicate tying the installed ISR handlers to the
`handler_args_` list: every armed pin has its context recorded, so the
destructor's removal loop reaches every installed handler.  It holds
for every state built through the public API. -/
def Covered (s : Interrupt) : Prop :=
  ∀ p, s.gpio_isr_handlers p ≠ none → p ∈ s.handler_args_.map (fun a => a.gpio_num)

theorem configure_interrupt_nocb (env : Env) (s : Interrupt)
    (interrupt : InterruptConfig) (h : interrupt.callback = none) :
    configure_interrupt env s interrupt =
      { s with log := s.log ++ [LogMsg.infoConfiguringInterrupt interrupt.gpio_num,
                                LogMsg.errorNoCallbackProvided interrupt.gpio_num] } := by
  simp [configure_interrupt, h]

theorem configure_interrupt_fields (env : Env) (s : Interrupt)
    (interrupt : InterruptConfig) (cb : Nat) (h : interrupt.callback = some cb) :
    (configure_interrupt env s interrupt).gpio_pin_config =
      (fun p => if p = interrupt.gpio_num then
          some { mode_input := true, intr_type := interrupt.interrupt_type
                 pull_up_en := interrupt.pullup_enabled
                 pull_down_en := interrupt.pulldown_enabled }
        else s.gpio_pin_config p) ∧
    (configure_interrupt env s interrupt).gpio_isr_handlers =
      (fun p => if p = interrupt.gpio_num then
          some { gpio_num := interrupt.gpio_num, event_queue := s.queue_.isSome }
        else s.gpio_isr_handlers p) ∧
    (configure_interrupt env s interrupt).handler_args_ =
      s.handler_args_ ++ [{ gpio_num := interrupt.gpio_num, event_queue := s.queue_.isSome }] := by
  simp only [configure_interrupt, h]
  split
  · split
    · rcases env.gpio_new_pin_glitch_filter interrupt.gpio_num with _ | handle <;> simp
    · simp
  · simp

theorem configure_interrupt_preserves (env : Env) (s : Interrupt)
    (interrupt : InterruptConfig) :
    (configure_interrupt env s interrupt).queue_ = s.queue_ ∧
    (configure_interrupt env s interrupt).task_ = s.task_ ∧
    (configure_interrupt env s interrupt).interrupts_ = s.interrupts_ := by
  rcases hc : interrupt.callback with _ | cb
  · simp [configure_interrupt_nocb env s interrupt hc]
  · simp only [configure_interrupt, hc]
    split
    · split
      · rcases env.gpio_new_pin_glitch_filter interrupt.gpio_num with _ | handle <;> simp
      · simp
    · simp

theorem remove_handlers_eq (l : List HandlerArgs) (g : Int → Option HandlerArgs) (p : Int) :
    remove_handlers g l p =
      if p ∈ l.map (fun a => a.gpio_num) then none else g p := by
  induction l generalizing g with
  | nil => simp [remove_handlers]
  | cons a rest ih =>
      simp only [remove_handlers, ih, List.map_cons, List.mem_cons]
      by_cases hmem : p ∈ rest.map (fun a => a.gpio_num)
      · simp [hmem]
      · by_cases hpa : p = a.gpio_num <;> simp [hmem, hpa]

theorem covered_configure (env : Env) (s : Interrupt) (interrupt : InterruptConfig)
    (h : Covered s) : Covered (configure_interrupt env s interrupt) := by
  rcases hc : interrupt.callback with _ | cb
  · intro p
    rw [configure_interrupt_nocb env s interrupt hc]
    exact h p
  · obtain ⟨-, hh, ha⟩ := configure_interrupt_fields env s interrupt cb hc
    intro p
    rw [hh, ha]
    by_cases hp : p = interrupt.gpio_num
    · intro _
      simp [hp]
    · intro hne
      simp only [hp, if_false] at hne
      have := h p hne
      simp only [List.map_append, List.mem_append]
      exact Or.inl this

theorem covered_add (env : Env) (s : Interrupt) (interrupt : InterruptConfig)
    (h : Covered s) : Covered (add_interrupt env s interrupt) := by
  unfold add_interrupt
  exact covered_configure env _ interrupt h

theorem covered_foldl_configure (env : Env) (l : List InterruptConfig) (s : Interrupt)
    (h : Covered s) :
    Covered (l.foldl (fun s i => configure_interrupt env s i) s) := by
  induction l generalizing s with
  | nil => exact h
  | cons a rest ih => exact ih _ (covered_configure env s a h)

theorem covered_construct (env : Env) (queue_create_ok : Bool) (config : Config) :
    Covered (construct env queue_create_ok config) := by
  unfold construct
  split
  · intro p hp
    exact covered_foldl_configure env config.interrupts _ (fun q hq => absurd rfl hq) p hp
  · intro p hp
    exact absurd rfl hp

theorem covered_foldl_add (env : Env) (l : List InterruptConfig) (s : Interrupt)
    (h : Covered s) : Covered (l.foldl (add_interrupt env) s) := by
  induction l generalizing s with
  | nil => exact h
  | cons a rest ih => exact ih _ (covered_add env s a h)

theorem covered_registry (env : Env) (queue_create_ok : Bool) (config : Config)
    (specs : List InterruptConfig) :
    Covered (registry_of env queue_create_ok config specs) :=
  covered_foldl_add env specs _ (covered_construct env queue_create_ok config)

theorem add_interrupt_queue_task (env : Env) (s : Interrupt) (a : InterruptConfig) :
    (add_interrupt env s a).queue_ = s.queue_ ∧ (add_interrupt env s a).task_ = s.task_ := by
  unfold add_interrupt
  obtain ⟨h1, h2, -⟩ := configure_interrupt_preserves env _ a
  exact ⟨h1, h2⟩

theorem foldl_configure_queue_task (env : Env) (l : List InterruptConfig) (s : Interrupt) :
    (l.foldl (fun s i => configure_interrupt env s i) s).queue_ = s.queue_ ∧
    (l.foldl (fun s i => configure_interrupt env s i) s).task_ = s.task_ := by
  induction l generalizing s with
  | nil => exact ⟨rfl, rfl⟩
  | cons a rest ih =>
      simp only [List.foldl_cons]
      obtain ⟨h1, h2⟩ := ih (configure_interrupt env s a)
      obtain ⟨g1, g2, -⟩ := configure_interrupt_preserves env s a
      exact ⟨h1.trans g1, h2.trans g2⟩

theorem construct_queue_task (env : Env) (queue_create_ok : Bool) (config : Config) :
    (construct env queue_create_ok config).queue_ =
      (if queue_create_ok then some { capacity := config.event_queue_size, items := [] }
       else none) ∧
    (construct env queue_create_ok config).task_ =
      (if queue_create_ok then some TaskState.running else none) := by
  cases queue_create_ok with
  | false => exact ⟨rfl, rfl⟩
  | true =>
      constructor
      · simp only [construct, if_true]
        exact (foldl_configure_queue_task env config.interrupts _).1
      · rfl

theorem foldl_add_queue_task (env : Env) (l : List InterruptConfig) (s : Interrupt) :
    (l.foldl (add_interrupt env) s).queue_ = s.queue_ ∧
    (l.foldl (add_interrupt env) s).task_ = s.task_ := by
  induction l generalizing s with
  | nil => exact ⟨rfl, rfl⟩
  | cons a rest ih =>
      simp only [List.foldl_cons]
      obtain ⟨h1, h2⟩ := ih (add_interrupt env s a)
      obtain ⟨g1, g2⟩ := add_interrupt_queue_task env s a
      exact ⟨h1.trans g1, h2.trans g2⟩

theorem registry_queue_task (env : Env) (queue_create_ok : Bool) (config : Config)
    (specs : List InterruptConfig) :
    (registry_of env queue_create_ok config specs).queue_ =
      (if queue_create_ok then some { capacity := config.event_queue_size, items := [] }
       else none) ∧
    (registry_of env queue_create_ok config specs).task_ =
      (if queue_create_ok then some TaskState.running else none) := by
  unfold registry_of
  obtain ⟨h1, h2⟩ := foldl_add_queue_task env specs (construct env queue_create_ok config)
  obtain ⟨hc1, hc2⟩ := construct_queue_task env queue_create_ok config
  exact ⟨h1.trans hc1, h2.trans hc2⟩

theorem destruct_gpio_isr_handlers (s : Interrupt) :
    (destruct s).gpio_isr_handlers = remove_handlers s.gpio_isr_handlers s.handler_args_ := by
  rcases hq : s.queue_ with _ | q <;> simp [destruct, hq]

theorem destruct_task (s : Interrupt) :
    (destruct s).task_ =
      (if s.queue_.isSome then (if s.task_.isSome then some TaskState.stopped else none)
       else s.task_) := by
  rcases hq : s.queue_ with _ | q <;> rcases ht : s.task_ with _ | t <;> simp [destruct, hq, ht]

theorem destruct_queue (s : Interrupt) : (destruct s).queue_ = none := by
  rcases hq : s.queue_ with _ | q <;> simp [destruct, hq]

theorem step_inert (env : Env) (s : Interrupt)
    (hh : ∀ p, s.gpio_isr_handlers p = none)
    (ht : s.task_ ≠ some TaskState.running) :
    ∀ ev, step env s ev = (s, []) := by
  intro ev
  cases ev with
  | hwEdge p => simp [step, hh p]
  | taskDispatch =>
      rcases htask : s.task_ with _ | st
      · simp [step, htask]
      · cases st with
        | running => exact absurd htask ht
        | stopped => simp [step, htask]

theorem run_inert (env : Env) (s : Interrupt)
    (hh : ∀ p, s.gpio_isr_handlers p = none)
    (ht : s.task_ ≠ some TaskState.running) :
    ∀ evs, run env s evs = (s, []) := by
  intro evs
  induction evs with
  | nil => rfl
  | cons ev rest ih => simp [run, step_inert env s hh ht ev, ih]

theorem sep_index {α : Type} (P Q : α → Prop) :
    ∀ (A B : List α), (∀ x ∈ A, ¬ Q x) → (∀ x ∈ B, ¬ P x) →
      ∀ (i j : Nat) (hi : i < (A ++ B).length) (hj : j < (A ++ B).length),
        P ((A ++ B).get ⟨i, hi⟩) → Q ((A ++ B).get ⟨j, hj⟩) → i < j := by
  intro A
  induction A with
  | nil =>
      intro B hQA hPB i j hi hj hP hQ
      exact absurd hP (hPB _ (List.get_mem B i hi))
  | cons a A' ih =>
      intro B hQA hPB i j hi hj hP hQ
      cases j with
      | zero => exact absurd hQ (hQA a (by simp))
      | succ j' =>
          cases i with
          | zero => exact Nat.succ_pos j'
          | succ i' =>
              have hi' : i' < (A' ++ B).length := by simpa using Nat.lt_of_succ_lt_succ hi
              have hj' : j' < (A' ++ B).length := by simpa using Nat.lt_of_succ_lt_succ hj
              have hP' : P ((A' ++ B).get ⟨i', hi'⟩) := hP
              have hQ' : Q ((A' ++ B).get ⟨j', hj'⟩) := hQ
              exact Nat.succ_lt_succ
                (ih B (fun x hx => hQA x (by simp [hx])) hPB i' j' hi' hj' hP' hQ')

/-- C1: for a dequeued non-sentinel event whose pin id matches a table
entry with a present callback (and whose pin id is a valid `uint8_t`
value, as every real GPIO number is), `task_callback` reads the pin's
current electrical level, computes `active = (level ==
active_level)`, and invokes that entry's callback exactly once with
`Event{pin id, active}` (the invocation list is the corresponding
singleton, and the event's `gpio_num` equals the pin id). -/
theorem C1_dispatch_invokes_callback (env : Env) (interrupts_ : List InterruptConfig)
    (event_data : EventData) (interrupt : InterruptConfig) (cb : Nat)
    (hfind : interrupts_.find? (fun it => it.gpio_num == event_data.gpio_num) = some interrupt)
    (hcb : interrupt.callback = some cb)
    (h0 : 0 ≤ event_data.gpio_num) (h256 : event_data.gpio_num < 256) :
    (task_callback env interrupts_ event_data).invocations =
      [(cb, { gpio_num := event_data.gpio_num.toNat
              active := env.gpio_get_level event_data.gpio_num == interrupt.active_level.toInt })] ∧
    ((event_data.gpio_num.toNat : Int) = event_data.gpio_num) := by
  have hne : ¬ event_data.gpio_num = -1 := by omega
  refine ⟨?_, Int.toNat_of_nonneg h0⟩
  simp only [task_callback, if_neg hne, hfind, hcb, is_active_level, uint8_of_int,
    Int.emod_eq_of_lt h0 h256]

/-- Witness for C1 at a concrete input: the table holds a spec for pin
3 with callback identity 1; dispatching event `{3}` invokes callback
1 exactly once with `Event{3, active}`. -/
theorem C1_dispatch_invokes_callback_witness :
    (task_callback env0 [spec3] { gpio_num := 3 }).invocations =
      [(1, { gpio_num := (3 : Int).toNat
             active := env0.gpio_get_level 3 == spec3.active_level.toInt })] ∧
    (((3 : Int).toNat : Int) = 3) :=
  C1_dispatch_invokes_callback env0 [spec3] { gpio_num := 3 } spec3 1 (by decide) (by decide)
    (by decide) (by decide)

/-- C5: the dispatch task is created in the running state by the
constructor, and `task_callback` asks the task to stop exactly when the
dequeued event carries the sentinel pin id `-1`; for every other
dequeued event — matched or not, callback present or not — it returns
`false` and the task keeps running. -/
theorem C5_task_stops_only_on_sentinel (env : Env) (config : Config)
    (interrupts_ : List InterruptConfig) (event_data : EventData) :
    (construct env true config).task_ = some TaskState.running ∧
    ((task_callback env interrupts_ event_data).stop = true ↔ event_data.gpio_num = -1) := by
  constructor
  · rfl
  · constructor
    · intro hstop
      by_contra h
      simp only [task_callback, if_neg h] at hstop
      rcases hf : interrupts_.find? (fun it => it.gpio_num == event_data.gpio_num) with _ | i
      · rw [hf] at hstop
        simp at hstop
      · rw [hf] at hstop
        rcases hc : i.callback with _ | cb
        · simp [hc] at hstop
        · simp [hc] at hstop
    · intro h
      simp [task_callback, h]

/-- C7: when the bounded queue is already full, the enqueue performed
by the ISR handler drops the event silently: the queue (capacity and
contents) is returned unchanged, and `xQueueSendFromISR` merely
reports `false`, a status the ISR handler discards, so no error
reaches the interrupt context and nothing blocks or retries. -/
theorem C7_full_queue_drops_silently (args : HandlerArgs) (q : EventQueue)
    (hfull : q.capacity ≤ q.items.length) :
    isr_handler args q = q ∧
    xQueueSendFromISR q { gpio_num := args.gpio_num } = (q, false) := by
  have h : ¬ q.items.length < q.capacity := Nat.not_lt.mpr hfull
  constructor <;> simp [isr_handler, xQueueSendFromISR, h]

/-- Witness for C7 at a concrete input: a full queue of capacity 2 is
unchanged by the ISR enqueue for pin 3. -/
theorem C7_full_queue_drops_silently_witness :
    isr_handler args3 qfull = qfull ∧
    xQueueSendFromISR qfull { gpio_num := args3.gpio_num } = (qfull, false) :=
  C7_full_queue_drops_silently args3 qfull (by decide)

/-- C10: the `Event` handed to a callback stores the pin id as
`static_cast<uint8_t>` of the registered `int` pin id, i.e. reduced
modulo 256; consequently a pin id outside `[0, 255]` is reported to
its callback under a different number than was registered. -/
theorem C10_event_pin_id_mod_256 (env : Env) (interrupts_ : List InterruptConfig)
    (event_data : EventData) (interrupt : InterruptConfig) (cb : Nat)
    (hfind : interrupts_.find? (fun it => it.gpio_num == event_data.gpio_num) = some interrupt)
    (hcb : interrupt.callback = some cb)
    (hns : event_data.gpio_num ≠ -1) :
    ((task_callback env interrupts_ event_data).invocations.map
        (fun inv => (inv.2.gpio_num : Int))) = [event_data.gpio_num % 256] ∧
    ((event_data.gpio_num < 0 ∨ 255 < event_data.gpio_num) →
       event_data.gpio_num % 256 ≠ event_data.gpio_num) := by
  constructor
  · simp only [task_callback, if_neg hns, hfind, hcb, uint8_of_int, List.map_cons, List.map_nil]
    rw [Int.toNat_of_nonneg (Int.emod_nonneg event_data.gpio_num (by norm_num))]
  · intro hout
    have h1 : 0 ≤ event_data.gpio_num % 256 :=
      Int.emod_nonneg event_data.gpio_num (by norm_num)
    have h2 : event_data.gpio_num % 256 < 256 :=
      Int.emod_lt_of_pos event_data.gpio_num (by norm_num)
    omega

/-- Witness for C10 at a concrete input: a spec registered for pin 300
has its callback invoked with `Event.gpio_num = 44 = 300 mod 256`,
a different number than was registered. -/
theorem C10_event_pin_id_mod_256_witness :
    ((task_callback env0 [spec300] { gpio_num := 300 }).invocations.map
        (fun inv => (inv.2.gpio_num : Int))) = [(300 : Int) % 256] ∧
    (((300 : Int) < 0 ∨ 255 < (300 : Int)) → (300 : Int) % 256 ≠ 300) :=
  C10_event_pin_id_mod_256 env0 [spec300] { gpio_num := 300 } spec300 2 (by decide) (by decide)
    (by decide)

theorem find?_first (ed : Int) :
    ∀ (pre : List InterruptConfig) (interrupt : InterruptConfig) (post : List InterruptConfig),
      (∀ x ∈ pre, x.gpio_num ≠ ed) → interrupt.gpio_num = ed →
      (pre ++ interrupt :: post).find? (fun it => it.gpio_num == ed) = some interrupt := by
  intro pre
  induction pre with
  | nil =>
      intro interrupt post _ hm
      exact List.find?_cons_of_pos _ (by simp [hm])
  | cons a pre ih =>
      intro interrupt post hpre hm
      rw [List.cons_append, List.find?_cons_of_neg _ (by simp [hpre a (by simp)])]
      exact ih interrupt post (fun x hx => hpre x (by simp [hx])) hm

theorem add_interrupt_gpio_fields (env : Env) (s : Interrupt) (interrupt : InterruptConfig)
    (cb : Nat) (h : interrupt.callback = some cb) :
    (add_interrupt env s interrupt).gpio_pin_config =
      (fun p => if p = interrupt.gpio_num then
          some { mode_input := true, intr_type := interrupt.interrupt_type
                 pull_up_en := interrupt.pullup_enabled
                 pull_down_en := interrupt.pulldown_enabled }
        else s.gpio_pin_config p) ∧
    (add_interrupt env s interrupt).gpio_isr_handlers =
      (fun p => if p = interrupt.gpio_num then
          some { gpio_num := interrupt.gpio_num, event_queue := s.queue_.isSome }
        else s.gpio_isr_handlers p) := by
  unfold add_interrupt
  obtain ⟨h1, h2, -⟩ := configure_interrupt_fields env
    { s with log := s.log ++ [LogMsg.infoAddingInterrupt interrupt.gpio_num]
             interrupts_ := s.interrupts_ ++ [interrupt] } interrupt cb h
  exact ⟨h1, h2⟩

/-- C2 counterexample: `add_interrupt` called with a spec whose
callback is absent logs the rejection but DOES append the spec to the
registry's table `interrupts_` — the `push_back` precedes the callback
check, so the claim "the spec is not added to the registry's table" is
false at this input. -/
theorem C2_counterexample_spec_still_added :
    spec7_nocb ∈ (add_interrupt env0 (construct env0 true cfg_empty) spec7_nocb).interrupts_ ∧
    LogMsg.errorNoCallbackProvided 7 ∈
      (add_interrupt env0 (construct env0 true cfg_empty) spec7_nocb).log := by
  constructor <;> decide

/-- C2 (amended): for every spec whose callback is absent,
`add_interrupt` logs the rejection and arms no hardware — no pin is
configured, no handler context is allocated, no ISR handler is
installed, no glitch filter is allocated — but the spec IS appended to
the registry's table `interrupts_`. -/
theorem C2_add_without_callback (env : Env) (s : Interrupt) (interrupt : InterruptConfig)
    (h : interrupt.callback = none) :
    (add_interrupt env s interrupt).interrupts_ = s.interrupts_ ++ [interrupt] ∧
    (add_interrupt env s interrupt).handler_args_ = s.handler_args_ ∧
    (add_interrupt env s interrupt).gpio_isr_handlers = s.gpio_isr_handlers ∧
    (add_interrupt env s interrupt).gpio_pin_config = s.gpio_pin_config ∧
    (add_interrupt env s interrupt).glitch_filter_handles_ = s.glitch_filter_handles_ ∧
    LogMsg.errorNoCallbackProvided interrupt.gpio_num ∈ (add_interrupt env s interrupt).log := by
  unfold add_interrupt
  rw [configure_interrupt_nocb env _ interrupt h]
  exact ⟨rfl, rfl, rfl, rfl, rfl, by simp⟩

/-- Witness for the amended C2 at a concrete input: adding the
callback-less spec for pin 7 to a freshly constructed registry. -/
theorem C2_add_without_callback_witness :
    (add_interrupt env0 (construct env0 true cfg_empty) spec7_nocb).interrupts_ =
      (construct env0 true cfg_empty).interrupts_ ++ [spec7_nocb] ∧
    (add_interrupt env0 (construct env0 true cfg_empty) spec7_nocb).handler_args_ =
      (construct env0 true cfg_empty).handler_args_ ∧
    (add_interrupt env0 (construct env0 true cfg_empty) spec7_nocb).gpio_isr_handlers =
      (construct env0 true cfg_empty).gpio_isr_handlers ∧
    (add_interrupt env0 (construct env0 true cfg_empty) spec7_nocb).gpio_pin_config =
      (construct env0 true cfg_empty).gpio_pin_config ∧
    (add_interrupt env0 (construct env0 true cfg_empty) spec7_nocb).glitch_filter_handles_ =
      (construct env0 true cfg_empty).glitch_filter_handles_ ∧
    LogMsg.errorNoCallbackProvided spec7_nocb.gpio_num ∈
      (add_interrupt env0 (construct env0 true cfg_empty) spec7_nocb).log :=
  C2_add_without_callback env0 (construct env0 true cfg_empty) spec7_nocb (by decide)

/-- C3: evaluation at the failing input.  When `xQueueCreate` fails,
the constructor logs the failure and creates no task, but a later
`add_interrupt` with a valid spec still installs the ISR handler for
the pin — with a `HandlerArgs` whose queue handle is null — so the
registry is NOT inert: the claim "no further pins can be armed
afterwards" is contradicted by the code (and the armed ISR would write
through a null queue handle). -/
theorem C3_inert_registry_still_arms :
    LogMsg.errorFailedCreateQueue ∈
      (add_interrupt env0 (construct env0 false cfg_empty) spec3).log ∧
    (add_interrupt env0 (construct env0 false cfg_empty) spec3).task_ = none ∧
    (add_interrupt env0 (construct env0 false cfg_empty) spec3).gpio_isr_handlers 3 =
      some { gpio_num := 3, event_queue := false } ∧
    (add_interrupt env0 (construct env0 false cfg_empty) spec3).handler_args_ =
      [{ gpio_num := 3, event_queue := false }] := by
  refine ⟨?_, ?_, ?_, ?_⟩ <;> decide

/-- C6: on a non-sentinel event the dispatch scan is `std::find_if`
over the table in registration order, so the first matching entry is
selected; when no entry matches, `task_callback` only logs an error
and keeps running (no invocation, no other effect); when the first
matching entry has an absent callback, it only logs an error and keeps
running without invoking anything. -/
theorem C6_dispatch_scan_and_error_paths (env : Env) (interrupts_ : List InterruptConfig)
    (event_data : EventData) (hns : event_data.gpio_num ≠ -1) :
    (∀ pre interrupt post,
       interrupts_ = pre ++ interrupt :: post →
       (∀ x ∈ pre, x.gpio_num ≠ event_data.gpio_num) →
       interrupt.gpio_num = event_data.gpio_num →
       interrupts_.find? (fun it => it.gpio_num == event_data.gpio_num) = some interrupt) ∧
    ((∀ x ∈ interrupts_, x.gpio_num ≠ event_data.gpio_num) →
       task_callback env interrupts_ event_data =
         { stop := false
           log := [LogMsg.infoReceivedInterrupt event_data.gpio_num,
                   LogMsg.errorNoInterruptFound event_data.gpio_num]
           invocations := [] }) ∧
    (∀ interrupt,
       interrupts_.find? (fun it => it.gpio_num == event_data.gpio_num) = some interrupt →
       interrupt.callback = none →
       task_callback env interrupts_ event_data =
         { stop := false
           log := [LogMsg.infoReceivedInterrupt event_data.gpio_num,
                   LogMsg.errorNoCallbackRegistered event_data.gpio_num]
           invocations := [] }) := by
  refine ⟨?_, ?_, ?_⟩
  · intro pre interrupt post heq hpre hmatch
    subst heq
    exact find?_first event_data.gpio_num pre interrupt post hpre hmatch
  · intro hnone
    have hf : interrupts_.find? (fun it => it.gpio_num == event_data.gpio_num) = none :=
      List.find?_eq_none.mpr (fun x hx => by simp [hnone x hx])
    simp only [task_callback, if_neg hns, hf]
  · intro interrupt hfind hcb
    simp only [task_callback, if_neg hns, hfind, hcb]

/-- Witness for C6 at a concrete input: all three conjuncts of the
theorem instantiated at the one-entry table `[spec7_nocb]` and the
dequeued event `{7}`, whose first (and only) match is the
callback-less spec for pin 7. -/
theorem C6_dispatch_scan_and_error_paths_witness :
    (∀ pre interrupt post,
       [spec7_nocb] = pre ++ interrupt :: post →
       (∀ x ∈ pre, x.gpio_num ≠ (7 : Int)) →
       interrupt.gpio_num = (7 : Int) →
       List.find? (fun it => it.gpio_num == (7 : Int)) [spec7_nocb] = some interrupt) ∧
    ((∀ x ∈ [spec7_nocb], x.gpio_num ≠ (7 : Int)) →
       task_callback env0 [spec7_nocb] { gpio_num := 7 } =
         { stop := false
           log := [LogMsg.infoReceivedInterrupt 7, LogMsg.errorNoInterruptFound 7]
           invocations := [] }) ∧
    (∀ interrupt,
       List.find? (fun it => it.gpio_num == (7 : Int)) [spec7_nocb] = some interrupt →
       interrupt.callback = none →
       task_callback env0 [spec7_nocb] { gpio_num := 7 } =
         { stop := false
           log := [LogMsg.infoReceivedInterrupt 7, LogMsg.errorNoCallbackRegistered 7]
           invocations := [] }) :=
  C6_dispatch_scan_and_error_paths env0 [spec7_nocb] { gpio_num := 7 } (by decide)

/-- C8: configuring a spec that requests the glitch filter on a
platform without the capability logs a warning and still arms the pin:
`gpio_config` is applied (input mode, trigger, pulls), the ISR handler
context is installed, and no glitch filter handle is allocated. -/
theorem C8_glitch_filter_unsupported (env : Env) (s : Interrupt)
    (interrupt : InterruptConfig) (cb : Nat)
    (hcb : interrupt.callback = some cb)
    (hreq : interrupt.enable_pin_glitch_filter = true)
    (hunsup : env.glitch_filter_supported = false) :
    LogMsg.warnGlitchFilterUnsupported ∈ (configure_interrupt env s interrupt).log ∧
    (configure_interrupt env s interrupt).gpio_pin_config interrupt.gpio_num =
      some { mode_input := true, intr_type := interrupt.interrupt_type
             pull_up_en := interrupt.pullup_enabled
             pull_down_en := interrupt.pulldown_enabled } ∧
    (configure_interrupt env s interrupt).gpio_isr_handlers interrupt.gpio_num =
      some { gpio_num := interrupt.gpio_num, event_queue := s.queue_.isSome } ∧
    (configure_interrupt env s interrupt).glitch_filter_handles_ =
      s.glitch_filter_handles_ := by
  simp [configure_interrupt, hcb, hreq, hunsup]

/-- Witness for C8 at a concrete input: the filter-requesting spec for
pin 9 on the filterless platform. -/
theorem C8_glitch_filter_unsupported_witness :
    LogMsg.warnGlitchFilterUnsupported ∈
      (configure_interrupt env_nofilter (construct env_nofilter true cfg_empty) spec9_filter).log ∧
    (configure_interrupt env_nofilter (construct env_nofilter true cfg_empty)
        spec9_filter).gpio_pin_config spec9_filter.gpio_num =
      some { mode_input := true, intr_type := spec9_filter.interrupt_type
             pull_up_en := spec9_filter.pullup_enabled
             pull_down_en := spec9_filter.pulldown_enabled } ∧
    (configure_interrupt env_nofilter (construct env_nofilter true cfg_empty)
        spec9_filter).gpio_isr_handlers spec9_filter.gpio_num =
      some { gpio_num := spec9_filter.gpio_num
             event_queue := (construct env_nofilter true cfg_empty).queue_.isSome } ∧
    (configure_interrupt env_nofilter (construct env_nofilter true cfg_empty)
        spec9_filter).glitch_filter_handles_ =
      (construct env_nofilter true cfg_empty).glitch_filter_handles_ :=
  C8_glitch_filter_unsupported env_nofilter (construct env_nofilter true cfg_empty)
    spec9_filter 4 (by decide) (by decide) (by decide)

/-- C9: registering the same pin id a second time leaves the hardware
configured per the latest call's spec — the later `gpio_config`
applies the later spec's input mode, trigger type and pulls, and the
installed ISR handler context is the one for that pin. -/
theorem C9_reregistration_latest_config (env : Env) (s : Interrupt)
    (i1 i2 : InterruptConfig) (cb2 : Nat)
    (_hsame : i1.gpio_num = i2.gpio_num)
    (hcb2 : i2.callback = some cb2) :
    (add_interrupt env (add_interrupt env s i1) i2).gpio_pin_config i2.gpio_num =
      some { mode_input := true, intr_type := i2.interrupt_type
             pull_up_en := i2.pullup_enabled, pull_down_en := i2.pulldown_enabled } ∧
    (∃ args, (add_interrupt env (add_interrupt env s i1) i2).gpio_isr_handlers i2.gpio_num =
        some args ∧ args.gpio_num = i2.gpio_num) := by
  obtain ⟨hpc, hih⟩ := add_interrupt_gpio_fields env (add_interrupt env s i1) i2 cb2 hcb2
  constructor
  · rw [hpc]
    simp
  · refine ⟨{ gpio_num := i2.gpio_num
              event_queue := (add_interrupt env s i1).queue_.isSome }, ?_, rfl⟩
    rw [hih]
    simp

/-- Witness for C9 at a concrete input: pin 3 registered first with
`spec3` and then re-registered with `spec3_alt` (falling edge,
pull-up); the pin's hardware config is `spec3_alt`'s. -/
theorem C9_reregistration_latest_config_witness :
    (add_interrupt env0 (add_interrupt env0 (construct env0 true cfg_empty) spec3)
        spec3_alt).gpio_pin_config spec3_alt.gpio_num =
      some { mode_input := true, intr_type := spec3_alt.interrupt_type
             pull_up_en := spec3_alt.pullup_enabled
             pull_down_en := spec3_alt.pulldown_enabled } ∧
    (∃ args, (add_interrupt env0 (add_interrupt env0 (construct env0 true cfg_empty) spec3)
        spec3_alt).gpio_isr_handlers spec3_alt.gpio_num =
        some args ∧ args.gpio_num = spec3_alt.gpio_num) :=
  C9_reregistration_latest_config env0 (construct env0 true cfg_empty) spec3 spec3_alt 5
    (by decide) (by decide)

theorem sep_index_of_eq {α : Type} (P Q : α → Prop) (l A B : List α) (hl : l = A ++ B)
    (hQA : ∀ x ∈ A, ¬ Q x) (hPB : ∀ x ∈ B, ¬ P x)
    (i j : Nat) (hi : i < l.length) (hj : j < l.length)
    (hP : P (l.get ⟨i, hi⟩)) (hQ : Q (l.get ⟨j, hj⟩)) : i < j := by
  subst hl
  exact sep_index P Q A B hQA hPB i j hi hj hP hQ

/-- C4: teardown safety for any registry built through the public API.
First, in the destructor's action sequence every
`gpio_isr_handler_remove` precedes the posting of the sentinel.
Second, after the destructor every pin's installed ISR handler is gone
(the removal loop covers every armed pin).  Third, once the destructor
has returned, no sequence of further system events — hardware edges on
any pins interleaved with dispatch-task steps — ever invokes a
callback or changes anything: the handlers are removed and the task
has observed the sentinel and stopped. -/
theorem C4_teardown_ordering_and_silence (env : Env) (queue_create_ok : Bool)
    (config : Config) (specs : List InterruptConfig) :
    (∀ (i j : Nat)
       (hi : i < (destructor_actions (registry_of env queue_create_ok config specs)).length)
       (hj : j < (destructor_actions (registry_of env queue_create_ok config specs)).length)
       (p : Int),
       (destructor_actions (registry_of env queue_create_ok config specs)).get ⟨i, hi⟩ =
         DtorAction.removeHandler p →
       (destructor_actions (registry_of env queue_create_ok config specs)).get ⟨j, hj⟩ =
         DtorAction.postSentinel → i < j) ∧
    (∀ p, (destruct (registry_of env queue_create_ok config specs)).gpio_isr_handlers p = none) ∧
    (∀ evs, run env (destruct (registry_of env queue_create_ok config specs)) evs =
       (destruct (registry_of env queue_create_ok config specs), [])) := by
  set s := registry_of env queue_create_ok config specs with hs
  have hcov : Covered s := covered_registry env queue_create_ok config specs
  obtain ⟨hq, htk⟩ := registry_queue_task env queue_create_ok config specs
  rw [← hs] at hq htk
  have hnone : ∀ p, (destruct s).gpio_isr_handlers p = none := by
    intro p
    rw [destruct_gpio_isr_handlers, remove_handlers_eq]
    by_cases hm : p ∈ s.handler_args_.map (fun a => a.gpio_num)
    · simp [hm]
    · simp only [hm, if_false]
      by_contra hne
      exact hm (hcov p hne)
  refine ⟨?_, hnone, ?_⟩
  · intro i j hi hj p hrp hps
    refine sep_index_of_eq (fun x => ∃ q, x = DtorAction.removeHandler q)
      (fun x => x = DtorAction.postSentinel)
      (destructor_actions s)
      (s.handler_args_.map fun args => DtorAction.removeHandler args.gpio_num)
      ((if s.queue_.isSome then
          [DtorAction.postSentinel, DtorAction.stopTask, DtorAction.deleteQueue]
        else []) ++
       ((s.glitch_filter_handles_.flatMap fun h =>
           [DtorAction.disableGlitchFilter h, DtorAction.deleteGlitchFilter h]) ++
        (s.handler_args_.map fun args => DtorAction.deleteHandlerArg args.gpio_num)))
      rfl ?_ ?_ i j hi hj ⟨p, hrp⟩ hps
    · intro x hx
      obtain ⟨a, -, rfl⟩ := List.mem_map.mp hx
      simp
    · intro x hx
      rcases List.mem_append.mp hx with hx | hx
      · split at hx
        · simp only [List.mem_cons, List.not_mem_nil, or_false] at hx
          rcases hx with rfl | rfl | rfl <;> simp
        · simp at hx
      · rcases List.mem_append.mp hx with hx | hx
        · obtain ⟨h, -, hx⟩ := List.mem_flatMap.mp hx
          simp only [List.mem_cons, List.not_mem_nil, or_false] at hx
          rcases hx with rfl | rfl <;> simp
        · obtain ⟨a, -, rfl⟩ := List.mem_map.mp hx
          simp
  · have ht : (destruct s).task_ ≠ some TaskState.running := by
      rw [destruct_task]
      cases queue_create_ok with
      | true => simp [hq, htk]
      | false => simp [hq, htk]
    intro evs
    exact run_inert env (destruct s) hnone ht evs

/-- Witness for C4 at a concrete input: the registry constructed with
`spec3`.  Its destructor trace is `[removeHandler 3, postSentinel,
stopTask, deleteQueue, deleteHandlerArg 3]`: the removal at index 0
precedes the sentinel at index 1; afterwards pin 3 has no handler and
a hardware edge on pin 3 followed by a task step delivers nothing. -/
theorem C4_teardown_ordering_and_silence_witness :
    (0 : Nat) < 1 ∧
    (destruct (registry_of env0 true cfg3 [])).gpio_isr_handlers 3 = none ∧
    run env0 (destruct (registry_of env0 true cfg3 []))
        [SysEvent.hwEdge 3, SysEvent.taskDispatch] =
      (destruct (registry_of env0 true cfg3 []), []) :=
  ⟨(C4_teardown_ordering_and_silence env0 true cfg3 []).1 0 1 (by decide) (by decide) 3
      (by decide) (by decide),
   (C4_teardown_ordering_and_silence env0 true cfg3 []).2.1 3,
   (C4_teardown_ordering_and_silence env0 true cfg3 []).2.2
      [SysEvent.hwEdge 3, SysEvent.taskDispatch]⟩

end espp
